import Mathlib

/-!
Verification of `diffusion_model_incorporates_forward_forward_algorithm.py`.

Shallow embedding conventions:
* A flattened tensor is `List ℚ`; a batch (first dimension = example index)
  is `List (List ℚ)`, one flattened row per example.
* Python exceptions are `Except PyErr`.
* Tensors that carry an autograd flag are `GTensor` / the scalar `GScalar`
  (`requiresGrad` mirrors `tensor.requires_grad`; an arithmetic result
  requires grad iff one of its inputs does, and `torch.tensor(0.0)` does not).
* Elementwise binary operations are `List.zipWith`; the script only combines
  tensors of equal shape, so the truncating behaviour of `zipWith` outside
  that domain is never exercised by the theorems below.
* `torch.mean` of a rational list is `meanQ`; on the empty list it yields `0`
  where torch yields NaN, a case none of the theorems touch.
-/

/-- Python exception outcomes relevant to this script. -/
inductive PyErr where
  /-- `TypeError: __init__() missing required positional arguments`. -/
  | typeErrorMissingArgs
  /-- `TypeError: forward() takes 2 positional arguments but 3 were given`. -/
  | typeErrorArity
  /-- `TypeError: empty(): argument 'size' ... found element of type float`:
      a convolution constructor given a float channel count. -/
  | typeErrorFloatSize
  /-- `RuntimeError: Trying to create tensor with negative dimension`. -/
  | runtimeErrorNegativeSize
  /-- `RuntimeError: element 0 of tensors does not require grad and does not
      have a grad_fn`, raised by `.backward()` on a constant tensor. -/
  | runtimeErrorNoGradFn
deriving DecidableEq, Repr

/-- A tensor value together with its autograd `requires_grad` flag. -/
structure GTensor where
  data : List ℚ
  requiresGrad : Bool
deriving DecidableEq, Repr

/-- A scalar (0-dim) tensor with its autograd `requires_grad` flag. -/
structure GScalar where
  val : ℚ
  requiresGrad : Bool
deriving DecidableEq, Repr

/-- Scalar multiplication `c * tensor`, elementwise. -/
def tscale (c : ℚ) (t : List ℚ) : List ℚ := t.map (fun x => c * x)

/-- Elementwise tensor addition (the script only adds equal-shape tensors). -/
def tadd (a b : List ℚ) : List ℚ := List.zipWith (· + ·) a b

/-- Elementwise `(a - b)**2` (the script only subtracts equal-shape tensors). -/
def sqDiffL (a b : List ℚ) : List ℚ := List.zipWith (fun x y => (x - y) ^ 2) a b

/-- The operation `torch.mean` over the flattened elements. -/
def meanQ (l : List ℚ) : ℚ := l.sum / l.length

/-- Boolean-mask row selection `X[y == v]`: keeps the rows of `X` whose label
equals `v`, in order.  (torch raises on a length mismatch between mask and
batch; the script always passes a mask of matching length.) -/
def select (v : ℤ) : List ℤ → List (List ℚ) → List (List ℚ)
  | [], _ => []
  | _ :: _, [] => []
  | l :: ls, x :: xs => if l = v then x :: select v ls xs else select v ls xs

/-- The method `Tensor.nelement()`: total number of elements across the rows. -/
def nelement (X : List (List ℚ)) : ℕ := (X.map List.length).sum

/-- A model as `forward_forward` receives it: a callable invoked with two
positional batch arguments, which may raise. -/
def ModelCall : Type := List (List ℚ) → List (List ℚ) → Except PyErr GTensor

/-- The function `forward_forward(model, X_left, X_right, y)` from the source:
partition both halves by label (`y == 1` positive, `y == 0` negative),
return the constant tensor `0.0` if either left partition is empty, else
call the model on each (left, right) pair and return
`torch.mean((out_pos - out_neg)**2)`.  The first raising model call
propagates, as in Python. -/
def forward_forward (model : ModelCall) (X_left X_right : List (List ℚ))
    (y : List ℤ) : Except PyErr GScalar :=
  let X_pos_left := select 1 y X_left
  let X_neg_left := select 0 y X_left
  let X_pos_right := select 1 y X_right
  let X_neg_right := select 0 y X_right
  if nelement X_pos_left = 0 ∨ nelement X_neg_left = 0 then
    Except.ok ⟨0, false⟩
  else
    match model X_pos_left X_pos_right with
    | Except.error e => Except.error e
    | Except.ok outPos =>
      match model X_neg_left X_neg_right with
      | Except.error e => Except.error e
      | Except.ok outNeg =>
        Except.ok ⟨meanQ (sqDiffL outPos.data outNeg.data),
                   outPos.requiresGrad || outNeg.requiresGrad⟩

/-- Python call binding against `UNet.forward(self, x)`: the forward method
declares a single tensor parameter, so a call with any other number of
positional arguments raises a `TypeError` before any computation runs. -/
def unetApplyArgs (forwardOne : List (List ℚ) → Except PyErr GTensor)
    (args : List (List (List ℚ))) : Except PyErr GTensor :=
  match args with
  | [x] => forwardOne x
  | _ => Except.error PyErr.typeErrorArity

/-- The two-positional-argument invocation `model(X_left_part, X_right_part)`
performed by `forward_forward`, for a UNet instance whose `forward` is
`forwardOne`. -/
def unetBinaryCall (forwardOne : List (List ℚ) → Except PyErr GTensor) :
    ModelCall :=
  fun a b => unetApplyArgs forwardOne [a, b]

/-- Relabelling that exchanges the `label == 1` and `label == 0` partitions
and leaves every other label where it is. -/
def swap01 (l : ℤ) : ℤ := if l = 1 then 0 else if l = 0 then 1 else l

/-- The call `loss.backward()`: succeeds only when the loss tensor requires grad;
on a fresh constant such as `torch.tensor(0.0)` it raises. -/
def backwardCheck (s : GScalar) : Except PyErr Unit :=
  if s.requiresGrad then Except.ok () else Except.error PyErr.runtimeErrorNoGradFn

/-- The parameter-update fragment of the training loop
(`optimizer.zero_grad(); loss.backward(); optimizer.step()`), with the
optimizer's parameter update abstracted as `optStep` (optimizer internals are
an external collaborator).  Returns the parameter vector after the fragment
together with the exception, if one was raised: when `backward` raises, the
optimizer step never executes and the parameters are returned untouched. -/
def contrastiveUpdate (optStep : List ℚ → List ℚ) (params : List ℚ)
    (loss : GScalar) : List ℚ × Option PyErr :=
  match backwardCheck loss with
  | Except.error e => (params, some e)
  | Except.ok _ => (optStep params, none)

/-! ### The `UNet.__init__` constructor

Python arithmetic on channel counts: `2 ** (i - 1)` is an `int` when the
exponent is non-negative and a `float` otherwise; multiplying a `float` by an
`int` stays a `float`.  torch's convolution constructors accept only
non-negative `int` sizes: a `float` (even integer-valued, like `1.0`) raises
`TypeError`, a negative `int` raises `RuntimeError`. -/

/-- A Python number as produced by the channel-count arithmetic. -/
inductive PyNum where
  | intVal (n : ℤ)
  | floatVal (q : ℚ)
deriving DecidableEq, Repr

/-- Python `2 ** e` for an `int` exponent `e`. -/
def pyPowTwo (e : ℤ) : PyNum :=
  if 0 ≤ e then PyNum.intVal (2 ^ e.toNat)
  else PyNum.floatVal (1 / 2 ^ (-e).toNat)

/-- Python multiplication of a number by an `int`. -/
def pyMulInt (a : PyNum) (m : ℤ) : PyNum :=
  match a with
  | PyNum.intVal n => PyNum.intVal (n * m)
  | PyNum.floatVal q => PyNum.floatVal (q * m)

/-- Size validation performed by a convolution-layer constructor. -/
def requireSize (n : PyNum) : Except PyErr ℕ :=
  match n with
  | PyNum.intVal m =>
    if 0 ≤ m then Except.ok m.toNat
    else Except.error PyErr.runtimeErrorNegativeSize
  | PyNum.floatVal _ => Except.error PyErr.typeErrorFloatSize

/-- The channel signature of a (transposed) convolution layer. -/
structure ConvSpec where
  inCh : ℕ
  outCh : ℕ
deriving DecidableEq, Repr

/-- Constructing `nn.Conv2d(in_ch, out_ch, ...)` (identical size checks apply
to `nn.ConvTranspose2d`): validate the input channel count, then the output
channel count. -/
def conv2dMake (inC outC : PyNum) : Except PyErr ConvSpec :=
  match requireSize inC with
  | Except.error e => Except.error e
  | Except.ok i =>
    match requireSize outC with
    | Except.error e => Except.error e
    | Except.ok o => Except.ok ⟨i, o⟩

/-- Downsampling stage `i`: `in_ch = in_channels if i == 0 else
2 ** (i - 1) * out_channels`. -/
def downLayerIn (in_channels out_channels : ℤ) (i : ℕ) : PyNum :=
  if i = 0 then PyNum.intVal in_channels
  else pyMulInt (pyPowTwo ((i : ℤ) - 1)) out_channels

/-- Downsampling stage `i`: `out_ch = 2 ** i * out_channels`. -/
def downLayerOut (out_channels : ℤ) (i : ℕ) : PyNum :=
  pyMulInt (pyPowTwo (i : ℤ)) out_channels

/-- Building downsampling stage `i`: `Conv2d(in_ch, out_ch)` then
`Conv2d(out_ch, out_ch)` (`LeakyReLU` and `MaxPool2d` construct no weights). -/
def downLayerMake (in_channels out_channels : ℤ) (i : ℕ) :
    Except PyErr (ConvSpec × ConvSpec) :=
  match conv2dMake (downLayerIn in_channels out_channels i)
      (downLayerOut out_channels i) with
  | Except.error e => Except.error e
  | Except.ok c1 =>
    match conv2dMake (downLayerOut out_channels i)
        (downLayerOut out_channels i) with
    | Except.error e => Except.error e
    | Except.ok c2 => Except.ok (c1, c2)

/-- Upsampling stage `i`: `in_ch = out_channels * 2 if i == num_layers - 1
else 2 ** i * out_channels`. -/
def upLayerIn (out_channels : ℤ) (num_layers i : ℕ) : PyNum :=
  if i = num_layers - 1 then PyNum.intVal (out_channels * 2)
  else pyMulInt (pyPowTwo (i : ℤ)) out_channels

/-- Upsampling stage `i`: `out_ch = 2 ** (i - 1) * out_channels` — a Python
`float` whenever `i = 0`. -/
def upLayerOut (out_channels : ℤ) (i : ℕ) : PyNum :=
  pyMulInt (pyPowTwo ((i : ℤ) - 1)) out_channels

/-- Building upsampling stage `i`: `ConvTranspose2d(in_ch, out_ch)` then two
`Conv2d(out_ch, out_ch)`. -/
def upLayerMake (out_channels : ℤ) (num_layers i : ℕ) :
    Except PyErr (ConvSpec × ConvSpec × ConvSpec) :=
  match conv2dMake (upLayerIn out_channels num_layers i)
      (upLayerOut out_channels i) with
  | Except.error e => Except.error e
  | Except.ok c1 =>
    match conv2dMake (upLayerOut out_channels i) (upLayerOut out_channels i) with
    | Except.error e => Except.error e
    | Except.ok c2 =>
      match conv2dMake (upLayerOut out_channels i)
          (upLayerOut out_channels i) with
      | Except.error e => Except.error e
      | Except.ok c3 => Except.ok (c1, c2, c3)

/-- Effectful `map` over a list in `Except`, stopping at the first raised
exception, as a Python `for` loop of constructor calls does. -/
def exceptMapM {α β : Type} (f : α → Except PyErr β) :
    List α → Except PyErr (List β)
  | [] => Except.ok []
  | a :: l =>
    match f a with
    | Except.error e => Except.error e
    | Except.ok b =>
      match exceptMapM f l with
      | Except.error e => Except.error e
      | Except.ok r => Except.ok (b :: r)

/-- The channel structure of a fully constructed `UNet`. -/
structure UNetArch where
  down : List (ConvSpec × ConvSpec)
  bottleneck : ConvSpec × ConvSpec
  up : List (ConvSpec × ConvSpec × ConvSpec)
  outputLayer : ConvSpec
deriving DecidableEq, Repr

/-- The constructor `UNet.__init__(self, in_channels, out_channels, num_layers=5)`:
construct the downsampling stages for `i in range(num_layers)`, the two
bottleneck convolutions, the upsampling stages for
`i in reversed(range(num_layers))`, and the output convolution, propagating
the first constructor exception. -/
def unetInit (in_channels out_channels : ℤ) (num_layers : ℕ) :
    Except PyErr UNetArch :=
  match exceptMapM (downLayerMake in_channels out_channels)
      (List.range num_layers) with
  | Except.error e => Except.error e
  | Except.ok downL =>
    match conv2dMake (pyMulInt (pyPowTwo ((num_layers : ℤ) - 1)) out_channels)
        (PyNum.intVal out_channels) with
    | Except.error e => Except.error e
    | Except.ok b1 =>
      match conv2dMake (PyNum.intVal out_channels)
          (PyNum.intVal out_channels) with
      | Except.error e => Except.error e
      | Except.ok b2 =>
        match exceptMapM (upLayerMake out_channels num_layers)
            (List.range num_layers).reverse with
        | Except.error e => Except.error e
        | Except.ok upL =>
          match conv2dMake (PyNum.intVal out_channels)
              (PyNum.intVal out_channels) with
          | Except.error e => Except.error e
          | Except.ok outL => Except.ok ⟨downL, (b1, b2), upL, outL⟩

/-- Whether an `Except` computation returned normally. -/
def isOkB {α : Type} (e : Except PyErr α) : Bool :=
  match e with
  | Except.ok _ => true
  | Except.error _ => false

/-- Python argument binding for the call `UNet(...)` against the signature
`__init__(self, in_channels, out_channels, num_layers=5)`: fewer than two
positional arguments raise `TypeError` before the constructor body runs. -/
def unetCallWith (args : List ℤ) : Except PyErr UNetArch :=
  match args with
  | [] => Except.error PyErr.typeErrorMissingArgs
  | [_] => Except.error PyErr.typeErrorMissingArgs
  | [ic, oc] => unetInit ic oc 5
  | [ic, oc, nl] => unetInit ic oc nl.toNat
  | _ => Except.error PyErr.typeErrorArity

/-- Line 87 of the script: `model = UNet()` — a call with no arguments. -/
def scriptModel : Except PyErr UNetArch := unetCallWith []

/-! ### Shape-level semantics of `UNet.forward`

To examine the forward pass independently of the constructor failure, the
channel-count formulas of `UNet.__init__` are taken at their rational values
(granting the construction the code intends) and each torch operation is
interpreted on tensor shapes, `none` marking a raised runtime error. -/

/-- A tensor shape `(channels, height, width)` (batch size is untouched by
every layer); channels are kept rational to grant the constructor its
`2 ** (i - 1) * out_channels` formula. -/
structure TShape where
  c : ℚ
  h : ℕ
  w : ℕ
deriving DecidableEq, Repr

/-- Python `2 ** e` at its numeric value. -/
def pow2Q (e : ℤ) : ℚ :=
  if 0 ≤ e then 2 ^ e.toNat else 1 / 2 ^ (-e).toNat

/-- A layer `Conv2d(inC, outC, kernel_size=3, padding=1)` on a shape: requires the
channel count to match and a non-empty spatial extent; preserves height and
width. -/
def convS (inC outC : ℚ) (s : TShape) : Option TShape :=
  if s.c = inC ∧ 1 ≤ s.h ∧ 1 ≤ s.w then some ⟨outC, s.h, s.w⟩ else none

/-- A layer `MaxPool2d(2)` on a shape: floor-halves the spatial extent; raises when
an output dimension would be zero. -/
def maxpoolS (s : TShape) : Option TShape :=
  if 2 ≤ s.h ∧ 2 ≤ s.w then some ⟨s.c, s.h / 2, s.w / 2⟩ else none

/-- A layer `ConvTranspose2d(inC, outC, kernel_size=2, stride=2)` on a shape:
requires the channel count to match; doubles the spatial extent. -/
def convTS (inC outC : ℚ) (s : TShape) : Option TShape :=
  if s.c = inC ∧ 1 ≤ s.h ∧ 1 ≤ s.w then some ⟨outC, 2 * s.h, 2 * s.w⟩ else none

/-- The operation `torch.cat([a, b], dim=1)` on shapes: requires matching spatial extents;
adds channel counts. -/
def catChanS (a b : TShape) : Option TShape :=
  if a.h = b.h ∧ a.w = b.w then some ⟨a.c + b.c, a.h, a.w⟩ else none

/-- Downsampling stage `i` applied to a shape: two convolutions then the
pooling, with the constructor's channel formulas. -/
def downLayerS (ic oc : ℚ) (i : ℕ) (s : TShape) : Option TShape :=
  (convS (if i = 0 then ic else pow2Q ((i : ℤ) - 1) * oc)
      (pow2Q (i : ℤ) * oc) s).bind
    (fun s1 => (convS (pow2Q (i : ℤ) * oc) (pow2Q (i : ℤ) * oc) s1).bind
      maxpoolS)

/-- The downsampling loop: apply each stage in order, appending each stage's
output shape to `down_outputs`. -/
def downPassS (ic oc : ℚ) : List ℕ → TShape → List TShape →
    Option (TShape × List TShape)
  | [], s, acc => some (s, acc)
  | i :: rest, s, acc =>
    match downLayerS ic oc i s with
    | none => none
    | some s' => downPassS ic oc rest s' (acc ++ [s'])

/-- Upsampling stage with construction index `i`: the transposed convolution
then two convolutions, with the constructor's channel formulas. -/
def upLayerS (oc : ℚ) (nl i : ℕ) (s : TShape) : Option TShape :=
  (convTS (if i = nl - 1 then oc * 2 else pow2Q (i : ℤ) * oc)
      (pow2Q ((i : ℤ) - 1) * oc) s).bind
    (fun s1 => (convS (pow2Q ((i : ℤ) - 1) * oc) (pow2Q ((i : ℤ) - 1) * oc)
        s1).bind
      (convS (pow2Q ((i : ℤ) - 1) * oc) (pow2Q ((i : ℤ) - 1) * oc)))

/-- The upsampling loop over positions `j` in `up_layers` (whose stage at
position `j` has construction index `nl - 1 - j`): apply the stage, then
concatenate with `down_outputs[-(j + 1)]` (`none` on an out-of-range index,
Python's `IndexError`). -/
def upPassS (oc : ℚ) (nl : ℕ) (downs : List TShape) :
    List ℕ → TShape → Option TShape
  | [], s => some s
  | j :: rest, s =>
    match upLayerS oc nl (nl - 1 - j) s with
    | none => none
    | some s1 =>
      match downs.get? (downs.length - 1 - j) with
      | none => none
      | some skip =>
        match catChanS s1 skip with
        | none => none
        | some s2 => upPassS oc nl downs rest s2

/-- The method `UNet.forward` on the shape level: downsampling with retained skips, the
two bottleneck convolutions, the upsampling loop with concatenation, and the
output convolution. -/
def unetForwardS (ic oc : ℚ) (nl : ℕ) (s0 : TShape) : Option TShape :=
  match downPassS ic oc (List.range nl) s0 [] with
  | none => none
  | some (x, downs) =>
    match convS (pow2Q ((nl : ℤ) - 1) * oc) oc x with
    | none => none
    | some xb1 =>
      match convS oc oc xb1 with
      | none => none
      | some xb2 =>
        match upPassS oc nl downs (List.range nl) xb2 with
        | none => none
        | some xu => convS oc oc xu

/-! ### The sampling routine and the training-loop noising step -/

/-- The interface `sample` and the training loop expect of the trained model:
a two-argument call `model(x, t)` and the two noise-schedule attributes.
(The script's `UNet` defines neither the attributes nor a two-argument
`forward`; the routines are generic in the model they receive.) -/
structure DiffusionNet where
  apply : List ℚ → ℕ → List ℚ
  alphas_cumprod : ℕ → ℚ
  sqrt_alphas_cumprod : ℕ → ℚ

/-- The routine `sample(model, noise, steps)` from the source: read the schedule
attributes, then `for i in range(steps - 1, -1, -1): noise = model(noise, i)
* sqrt_alphas_cumprod[i]`, returning the final tensor. -/
def sample (model : DiffusionNet) (noise : List ℚ) (steps : ℕ) : List ℚ :=
  ((List.range steps).reverse).foldl
    (fun x i => tscale (model.sqrt_alphas_cumprod i) (model.apply x i)) noise

/-- Modelled from the spec's words for comparison with `sample`: iterate `t`
from `T - 1` down to `0`, replacing the running tensor `x` by
`network(x, t) * sqrt_alphas_cumprod[t]`, and return the tensor obtained
after the `t = 0` step. -/
def sampleSpec (model : DiffusionNet) : ℕ → List ℚ → List ℚ
  | 0, x => x
  | t + 1, x =>
    sampleSpec model t (tscale (model.sqrt_alphas_cumprod t) (model.apply x t))

/-- The routine `sample` with the ambient random-number-generator state threaded
explicitly (state-passing form of the same source lines): the loop body
contains no call to a sampling primitive such as `torch.randn`, so each
iteration passes the generator state through unchanged. -/
def sampleRng (model : DiffusionNet) (noise : List ℚ) (steps : ℕ)
    (g : ℕ) : List ℚ × ℕ :=
  ((List.range steps).reverse).foldl
    (fun p i => (tscale (model.sqrt_alphas_cumprod i) (model.apply p.1 i), p.2))
    (noise, g)

/-- The noise-step order of the training loop,
`for t in range(diffusion_steps - 1, -1, -1)`. -/
def trainingNoiseSteps (T : ℕ) : List ℕ := (List.range T).reverse

/-- Modelled from the spec's words for comparison with `trainingNoiseSteps`:
the steps `T - 1, T - 2, ..., 0` in descending order. -/
def descSteps : ℕ → List ℕ
  | 0 => []
  | n + 1 => n :: descSteps n

/-- Lines 118–119 of the training loop:
`noise = torch.randn_like(images) * model.sqrt_alphas_cumprod[t]` and
`noisy_images = images * model.alphas_cumprod[t] + noise`, for a drawn
standard-normal tensor `eps` (which `randn_like` gives the shape of
`images`). -/
def noisyFromSource (images eps : List ℚ) (ac sac : ℚ) : List ℚ :=
  tadd (tscale ac images) (tscale sac eps)

/-- Modelled from the spec's words for comparison with `noisyFromSource`:
`image * alphas_cumprod[t] + (standard-normal noise *
sqrt_alphas_cumprod[t])`. -/
def noisySpecFormula (images eps : List ℚ) (ac sac : ℚ) : List ℚ :=
  tadd (tscale ac images) (tscale sac eps)

/-! ### Helper lemmas about `select` and the loss body -/

theorem select_eq_nil_of_forall_ne (v : ℤ) :
    ∀ (y : List ℤ) (X : List (List ℚ)), (∀ l ∈ y, l ≠ v) → select v y X = [] := by
  intro y
  induction y with
  | nil => intro X _; cases X <;> rfl
  | cons a ys ih =>
    intro X h
    cases X with
    | nil => rfl
    | cons x xs =>
      have ha : a ≠ v := h a (List.mem_cons_self a ys)
      simp only [select, if_neg ha]
      exact ih xs (fun l hl => h l (List.mem_cons_of_mem a hl))

theorem ff_empty_partition (model : ModelCall) (X_left X_right : List (List ℚ))
    (y : List ℤ) (h : (∀ l ∈ y, l ≠ 1) ∨ (∀ l ∈ y, l ≠ 0)) :
    forward_forward model X_left X_right y = Except.ok ⟨0, false⟩ := by
  rcases h with h1 | h0
  · have : select 1 y X_left = [] := select_eq_nil_of_forall_ne 1 y X_left h1
    simp [forward_forward, this, nelement]
  · have : select 0 y X_left = [] := select_eq_nil_of_forall_ne 0 y X_left h0
    simp [forward_forward, this, nelement]

theorem select_one_map_swap01 (y : List ℤ) (X : List (List ℚ)) :
    select 1 (y.map swap01) X = select 0 y X := by
  induction y generalizing X with
  | nil => cases X <;> rfl
  | cons a ys ih =>
    cases X with
    | nil => rfl
    | cons x xs =>
      by_cases h0 : a = 0
      · subst h0; simp [select, swap01, ih]
      · by_cases h1 : a = 1
        · subst h1; simp [select, swap01, ih]
        · simp [select, swap01, h0, h1, ih]

theorem select_zero_map_swap01 (y : List ℤ) (X : List (List ℚ)) :
    select 0 (y.map swap01) X = select 1 y X := by
  induction y generalizing X with
  | nil => cases X <;> rfl
  | cons a ys ih =>
    cases X with
    | nil => rfl
    | cons x xs =>
      by_cases h0 : a = 0
      · subst h0; simp [select, swap01, ih]
      · by_cases h1 : a = 1
        · subst h1; simp [select, swap01, ih]
        · simp [select, swap01, h0, h1, ih]

theorem sqDiffL_comm (a b : List ℚ) : sqDiffL a b = sqDiffL b a := by
  induction a generalizing b with
  | nil => cases b <;> rfl
  | cons x xs ih =>
    cases b with
    | nil => rfl
    | cons z zs =>
      simp only [sqDiffL, List.zipWith] at *
      congr 1
      · ring
      · exact ih zs

/-! ### Helper lemmas about the constructor and the loops -/

theorem requireSize_upLayerOut_zero (oc : ℤ) :
    requireSize (upLayerOut oc 0) = Except.error PyErr.typeErrorFloatSize := by
  simp [upLayerOut, pyPowTwo, pyMulInt, requireSize]

theorem upLayerMake_zero_not_ok (oc : ℤ) (nl : ℕ) :
    ∀ b, upLayerMake oc nl 0 ≠ Except.ok b := by
  intro b
  unfold upLayerMake conv2dMake
  cases hin : requireSize (upLayerIn oc nl 0) with
  | error e => simp [hin]
  | ok i => simp [hin, requireSize_upLayerOut_zero]

theorem upLayerMake_zero_float_err (oc : ℤ) (nl : ℕ) (hoc : 0 ≤ oc) :
    upLayerMake oc nl 0 = Except.error PyErr.typeErrorFloatSize := by
  have hin : ∃ n, upLayerIn oc nl 0 = PyNum.intVal n ∧ 0 ≤ n := by
    by_cases h : (0 : ℕ) = nl - 1
    · exact ⟨oc * 2, by simp [upLayerIn, h], by omega⟩
    · refine ⟨1 * oc, ?_, by omega⟩
      simp [upLayerIn, h, pyPowTwo, pyMulInt]
  obtain ⟨n, hn, hn0⟩ := hin
  unfold upLayerMake conv2dMake
  rw [hn, requireSize_upLayerOut_zero]
  simp [requireSize, hn0]

theorem exceptMapM_ne_ok_of_mem {α β : Type} (f : α → Except PyErr β) (a : α)
    (ha : ∀ b, f a ≠ Except.ok b) :
    ∀ (l : List α), a ∈ l → ∀ r, exceptMapM f l ≠ Except.ok r := by
  intro l
  induction l with
  | nil => intro hm; cases hm
  | cons x xs ih =>
    intro hm r
    cases hx : f x with
    | error e => simp [exceptMapM, hx]
    | ok b =>
      rcases List.mem_cons.mp hm with rfl | hmem
      · exact absurd hx (ha b)
      · cases hxs : exceptMapM f xs with
        | error e => simp [exceptMapM, hx, hxs]
        | ok rs => exact absurd hxs (ih hmem rs)

theorem unetInit_not_ok (ic oc : ℤ) (nl : ℕ) (h : 1 ≤ nl) :
    isOkB (unetInit ic oc nl) = false := by
  have h0 : (0 : ℕ) ∈ (List.range nl).reverse := by
    simp only [List.mem_reverse, List.mem_range]
    omega
  have hz : ∀ r, exceptMapM (upLayerMake oc nl) (List.range nl).reverse ≠
      Except.ok r :=
    exceptMapM_ne_ok_of_mem (upLayerMake oc nl) 0
      (upLayerMake_zero_not_ok oc nl) (List.range nl).reverse h0
  cases hdown : exceptMapM (downLayerMake ic oc) (List.range nl) with
  | error e => simp [unetInit, hdown, isOkB]
  | ok downL =>
    cases hb1 : conv2dMake (pyMulInt (pyPowTwo ((nl : ℤ) - 1)) oc)
        (PyNum.intVal oc) with
    | error e => simp [unetInit, hdown, hb1, isOkB]
    | ok b1 =>
      cases hb2 : conv2dMake (PyNum.intVal oc) (PyNum.intVal oc) with
      | error e => simp [unetInit, hdown, hb1, hb2, isOkB]
      | ok b2 =>
        cases hup : exceptMapM (upLayerMake oc nl) (List.range nl).reverse with
        | error e => simp [unetInit, hdown, hb1, hb2, hup, isOkB]
        | ok upL => exact absurd hup (hz upL)

theorem range_reverse_eq_descSteps (T : ℕ) :
    (List.range T).reverse = descSteps T := by
  induction T with
  | zero => rfl
  | succ n ih =>
    rw [List.range_succ, List.reverse_append]
    simp [descSteps, ih]

theorem sampleRng_eq (model : DiffusionNet) (noise : List ℚ) (steps : ℕ)
    (g : ℕ) : sampleRng model noise steps g = (sample model noise steps, g) := by
  unfold sampleRng sample
  generalize (List.range steps).reverse = l
  induction l generalizing noise with
  | nil => rfl
  | cons i rest ih => simp only [List.foldl_cons]; exact ih _

/-! ### Claim theorems C1, C3, C7, C9 -/

/-- C1: for every batch whose labels contain no positive (`1`) or no negative
(`0`) examples, `forward_forward` returns the constant scalar `0.0`
(a tensor not requiring grad) rather than raising an error. -/
theorem c1_empty_partition_zero_loss (model : ModelCall)
    (X_left X_right : List (List ℚ)) (y : List ℤ)
    (h : (∀ l ∈ y, l ≠ 1) ∨ (∀ l ∈ y, l ≠ 0)) :
    forward_forward model X_left X_right y = Except.ok ⟨0, false⟩ :=
  ff_empty_partition model X_left X_right y h

/-- C1 witness: a batch of two images all labeled `1` yields loss exactly
`0.0` and no error. -/
theorem c1_empty_partition_zero_loss_witness :
    ((∀ l ∈ ([1, 1] : List ℤ), l ≠ 1) ∨ (∀ l ∈ ([1, 1] : List ℤ), l ≠ 0)) ∧
      forward_forward (fun _ _ => Except.ok ⟨[1], true⟩) [[1], [2]] [[3], [4]]
        [1, 1] = Except.ok ⟨0, false⟩ :=
  ⟨Or.inr (by decide),
    c1_empty_partition_zero_loss (fun _ _ => Except.ok ⟨[1], true⟩)
      [[1], [2]] [[3], [4]] [1, 1] (Or.inr (by decide))⟩

/-- C3: the loss returned by `forward_forward` — run with the script's model,
whose `forward` accepts a single positional tensor, so that the
two-positional-argument call inside `forward_forward` raises `TypeError`
before reading either argument — does not depend on the right-half tensors:
two runs that differ only in `X_right` produce the same outcome, namely the
constant loss `0.0` when a left partition is empty and the identical
`TypeError` otherwise. -/
theorem c3_right_half_irrelevant
    (forwardOne : List (List ℚ) → Except PyErr GTensor)
    (X_left X_right X_right' : List (List ℚ)) (y : List ℤ) :
    forward_forward (unetBinaryCall forwardOne) X_left X_right y =
      forward_forward (unetBinaryCall forwardOne) X_left X_right' y := rfl

/-- C7: on a batch where `forward_forward` reaches the scoring step (both
model calls return tensors), exchanging the `label == 1` and `label == 0`
partitions leaves the returned loss unchanged, because the loss is the mean
of the squared difference of the two groups' outputs. -/
theorem c7_swap_partitions_loss_eq (model : ModelCall)
    (X_left X_right : List (List ℚ)) (y : List ℤ) (outPos outNeg : GTensor)
    (hp : model (select 1 y X_left) (select 1 y X_right) = Except.ok outPos)
    (hn : model (select 0 y X_left) (select 0 y X_right) = Except.ok outNeg) :
    forward_forward model X_left X_right (y.map swap01) =
      forward_forward model X_left X_right y := by
  simp only [forward_forward, select_one_map_swap01, select_zero_map_swap01,
    hp, hn]
  by_cases h : nelement (select 1 y X_left) = 0 ∨ nelement (select 0 y X_left) = 0
  · rw [if_pos h.symm, if_pos h]
  · have h' : ¬ (nelement (select 0 y X_left) = 0 ∨
        nelement (select 1 y X_left) = 0) := fun hc => h hc.symm
    rw [if_neg h', if_neg h]
    have hd : sqDiffL outNeg.data outPos.data = sqDiffL outPos.data outNeg.data :=
      sqDiffL_comm _ _
    rw [hd, Bool.or_comm]

/-- C7 witness: for a concrete model and the batch with labels `[1, 0]`,
swapping the partitions leaves the loss value unchanged. -/
theorem c7_swap_partitions_loss_eq_witness :
    ((fun a _ => Except.ok ⟨a.flatten, true⟩ : ModelCall)
        (select 1 [1, 0] [[1], [2]]) (select 1 [1, 0] [[5], [6]]) =
       Except.ok ⟨[1], true⟩) ∧
    ((fun a _ => Except.ok ⟨a.flatten, true⟩ : ModelCall)
        (select 0 [1, 0] [[1], [2]]) (select 0 [1, 0] [[5], [6]]) =
       Except.ok ⟨[2], true⟩) ∧
    forward_forward (fun a _ => Except.ok ⟨a.flatten, true⟩) [[1], [2]]
        [[5], [6]] (([1, 0] : List ℤ).map swap01) =
      forward_forward (fun a _ => Except.ok ⟨a.flatten, true⟩) [[1], [2]]
        [[5], [6]] [1, 0] :=
  ⟨rfl, rfl,
    c7_swap_partitions_loss_eq (fun a _ => Except.ok ⟨a.flatten, true⟩)
      [[1], [2]] [[5], [6]] [1, 0] ⟨[1], true⟩ ⟨[2], true⟩ rfl rfl⟩

/-- C9 counterexample: on a batch of images all labeled `1`,
`forward_forward` does return the fresh constant `0.0` (requiring no grad),
but the subsequent update fragment does not complete with unchanged
parameters as the claim states: `loss.backward()` raises (a constant tensor
has no `grad_fn`), so the fragment ends in an exception rather than a
performed no-op update. -/
theorem c9_constant_loss_update_counterexample :
    forward_forward (fun _ _ => Except.ok ⟨[1], true⟩) [[1]] [[1]] [1] =
      Except.ok ⟨0, false⟩ ∧
    contrastiveUpdate (fun p => p) [5] ⟨0, false⟩ =
      ([5], some PyErr.runtimeErrorNoGradFn) ∧
    contrastiveUpdate (fun p => p) [5] ⟨0, false⟩ ≠ (([5] : List ℚ), none) :=
  ⟨rfl, rfl, by decide⟩

/-- C9 amended: when a batch's labels are all `1` or all `0`,
`forward_forward` returns a fresh constant scalar `0.0` that does not require
grad; the training loop's subsequent `loss.backward()` on that constant then
raises a `RuntimeError` (no gradient path exists), so the optimizer step never
executes and every model parameter is left unchanged — by the raised
exception, not by a performed zero-gradient update. -/
theorem c9_constant_loss_update_raises (optStep : List ℚ → List ℚ)
    (params : List ℚ) (model : ModelCall) (X_left X_right : List (List ℚ))
    (y : List ℤ) (h : (∀ l ∈ y, l ≠ 1) ∨ (∀ l ∈ y, l ≠ 0)) :
    forward_forward model X_left X_right y = Except.ok ⟨0, false⟩ ∧
    contrastiveUpdate optStep params ⟨0, false⟩ =
      (params, some PyErr.runtimeErrorNoGradFn) :=
  ⟨ff_empty_partition model X_left X_right y h, rfl⟩

/-- C9 amended witness: concrete all-`1` batch, concrete parameters. -/
theorem c9_constant_loss_update_raises_witness :
    ((∀ l ∈ ([1, 1] : List ℤ), l ≠ 1) ∨ (∀ l ∈ ([1, 1] : List ℤ), l ≠ 0)) ∧
    (forward_forward (fun _ _ => Except.ok ⟨[1], true⟩) [[1], [2]] [[3], [4]]
        [1, 1] = Except.ok ⟨0, false⟩ ∧
      contrastiveUpdate (fun p => p.map (fun x => x - 1)) [5, 7] ⟨0, false⟩ =
        ([5, 7], some PyErr.runtimeErrorNoGradFn)) :=
  ⟨Or.inr (by decide),
    c9_constant_loss_update_raises (fun p => p.map (fun x => x - 1)) [5, 7]
      (fun _ _ => Except.ok ⟨[1], true⟩) [[1], [2]] [[3], [4]] [1, 1]
      (Or.inr (by decide))⟩

/-! ### Claim theorems C2, C4, C5, C6, C8, C10 -/

/-- C8: for every `in_channels`, `out_channels` and `num_layers ≥ 1`,
`UNet.__init__` never returns a usable network; for non-negative
`out_channels` the upsampling stage with loop index `i = 0` is the one
rejected, its output channel count `2 ** (i - 1) * out_channels =
out_channels / 2` being a Python float that the convolution-layer
constructor refuses. -/
theorem c8_unet_init_never_usable (in_channels out_channels : ℤ)
    (num_layers : ℕ) (h : 1 ≤ num_layers) :
    isOkB (unetInit in_channels out_channels num_layers) = false ∧
    (0 ≤ out_channels →
      upLayerMake out_channels num_layers 0 =
        Except.error PyErr.typeErrorFloatSize) :=
  ⟨unetInit_not_ok in_channels out_channels num_layers h,
    fun hoc => upLayerMake_zero_float_err out_channels num_layers hoc⟩

/-- C8 witness: the default configuration `UNet(1, 1)` (five layers). -/
theorem c8_unet_init_never_usable_witness :
    (1 ≤ 5) ∧ ((0 : ℤ) ≤ 1) ∧ isOkB (unetInit 1 1 5) = false ∧
      upLayerMake 1 5 0 = Except.error PyErr.typeErrorFloatSize :=
  ⟨by decide, by decide, (c8_unet_init_never_usable 1 1 5 (by decide)).1,
    (c8_unet_init_never_usable 1 1 5 (by decide)).2 (by decide)⟩

/-- C10: the script's `model = UNet()` raises a missing-argument `TypeError`
(the constructor declares `in_channels` and `out_channels` without defaults),
so no continuation of the script — training or sampling — is ever reached. -/
theorem c10_script_construction_fails :
    scriptModel = Except.error PyErr.typeErrorMissingArgs ∧
    ∀ rest : UNetArch → Except PyErr Unit,
      Except.bind scriptModel rest = Except.error PyErr.typeErrorMissingArgs :=
  ⟨rfl, fun _ => rfl⟩

/-- C2 (code bug, evaluated at the failing input): for the MNIST
configuration — `UNet(1, 1)` with its default five layers on a `28 × 28`
input — the constructor itself raises on a float channel count, and even
granting the construction, the shape-level forward pass raises before
producing any output (the fifth pooling is applied to a `1 × 1` map, and the
up path's channel and concatenation requirements fail), so the network never
returns a tensor whose spatial dimensions equal the input's. -/
theorem c2_forward_never_preserves_shape :
    unetInit 1 1 5 = Except.error PyErr.typeErrorFloatSize ∧
    unetForwardS 1 1 5 ⟨1, 28, 28⟩ = none := by
  refine ⟨rfl, ?_⟩
  norm_num [unetForwardS, downPassS, downLayerS, convS, maxpoolS, pow2Q,
    List.range_succ]

/-- C4: `sample` iterates `t` from `steps - 1` down to `0`, replacing the
running tensor `x` by `model(x, t) * sqrt_alphas_cumprod[t]` at each step and
returning the tensor obtained after the `t = 0` step — it coincides with the
spec-worded recursion `sampleSpec`. -/
theorem c4_sample_matches_spec_recursion (model : DiffusionNet) :
    ∀ (steps : ℕ) (noise : List ℚ),
      sample model noise steps = sampleSpec model steps noise := by
  intro steps
  induction steps with
  | zero => intro noise; rfl
  | succ t ih =>
    intro noise
    have hr : (List.range (t + 1)).reverse = t :: (List.range t).reverse := by
      rw [List.range_succ, List.reverse_append]
      rfl
    unfold sample
    rw [hr]
    simp only [List.foldl_cons]
    exact ih _

/-- C6: sampling is deterministic — with the generator state threaded
explicitly, two runs of `sample` from the same network, seed noise and step
count yield identical outputs whatever the generator states, the state is
returned untouched (no randomness is drawn inside the loop), and the result
is the pure `sample` value. -/
theorem c6_sampling_deterministic (model : DiffusionNet) (noise : List ℚ)
    (steps : ℕ) (g g' : ℕ) :
    (sampleRng model noise steps g).1 = (sampleRng model noise steps g').1 ∧
    (sampleRng model noise steps g).2 = g ∧
    (sampleRng model noise steps g).1 = sample model noise steps := by
  simp [sampleRng_eq]

/-- C5: the training loop's noise steps run from `T - 1` down to `0`, and the
noisy image it feeds forward is `images * alphas_cumprod[t] +
(standard-normal noise * sqrt_alphas_cumprod[t])`, of the same shape as the
image batch (the drawn noise having the batch's shape). -/
theorem c5_noisy_image_formula (images eps : List ℚ) (ac sac : ℚ) (T : ℕ)
    (h : eps.length = images.length) :
    trainingNoiseSteps T = descSteps T ∧
    noisyFromSource images eps ac sac = noisySpecFormula images eps ac sac ∧
    (noisyFromSource images eps ac sac).length = images.length := by
  refine ⟨range_reverse_eq_descSteps T, rfl, ?_⟩
  simp [noisyFromSource, tadd, tscale, h]

/-- C5 witness: a two-pixel image batch, noise of the same shape, concrete
schedule coefficients, three diffusion steps. -/
theorem c5_noisy_image_formula_witness :
    ([3, 4] : List ℚ).length = ([1, 2] : List ℚ).length ∧
    (trainingNoiseSteps 3 = descSteps 3 ∧
      noisyFromSource [1, 2] [3, 4] (1 / 2) (1 / 3) =
        noisySpecFormula [1, 2] [3, 4] (1 / 2) (1 / 3) ∧
      (noisyFromSource [1, 2] [3, 4] (1 / 2) (1 / 3)).length =
        ([1, 2] : List ℚ).length) :=
  ⟨rfl, c5_noisy_image_formula [1, 2] [3, 4] (1 / 2) (1 / 3) 3 rfl⟩
